import Mathlib

/-!
Verification development for the presentations-module batch orchestration core.

The Python sources are shallowly embedded:

* `ProgressPayload` mirrors the TypedDict in
  src/presentations/core/progress_payload.py (required keys stage, step,
  total_steps, percent; optional key files).
* `steps`, `report_progress`, `resolveStyle`, `genPre`, `genAll` and
  `generate_presentation_model` embed
  SokraticSource.generate_presentation
  (src/presentations_module/sources/sokratic_source.py, lines 89-295).
  Page interactions (clicks, waits, downloads) are external I/O; the inputs
  they supply to the control flow (the style count read from the page, the
  randomly chosen style index, the suggested download file names) are
  parameters collected in `GenEnv`.  Failures of those page interactions
  other than the explicitly raised exceptions of the source (no styles,
  non-numeric style_id, out-of-range style_id) abort the snapshot stream
  early; a stream produced by a partial run is always one of the lists this
  model produces truncated at a yield point, so consecutive-snapshot
  properties proved here cover partial runs as well.
* `RunBehavior`, `DbWrite`, `PyExc`, `foldDone` and
  `run_presentation_task` embed run_presentation_task (src/main.py,
  lines 51-92) together with MongoStorage.save_error / save_result
  (src/presentations_module/database/db.py): a behavior records whether
  each awaited step succeeds or raises (with the Python str(e) message),
  and the generation step is an arbitrary snapshot stream, namely the list
  of snapshots emitted before the stream either ends (none) or raises
  (some message).  dispose_async and apw.stop are modelled as non-raising;
  the one exception produced by the model itself is the UnboundLocalError
  that CPython raises in the finally block when `async_playwright().start()`
  raised and the local variables `source` and `apw` were never bound.
* `SokraticState` and `init_async` embed SokraticSource.init_async
  (lines 57-70): browsers and pages are identifiers, and the second
  component of the result lists the browsers launched by the call.
* `PresentationTask` is modelled from the spec (its defining module
  presentations/core/presentation_task.py is not under src/): a job with
  topic, language, slide count, audience and optional author.
* `mainModel` embeds main (src/main.py, lines 117-136): asyncio.gather
  with default return_exceptions collects the per-job results in submission
  order when every coroutine returns, and raises otherwise, in which case
  main's own except block logs and returns without collecting anything.
* `Phase`, `BatchState`, `BatchStep` and `BatchReachable` give the
  interleaving semantics of bounded_run (src/main.py, lines 123-125): a
  job acquires one semaphore unit, launches its driver, disposes it in the
  finally block, and only then releases the unit when the async-with block
  of the semaphore exits; a job that fails before launching a driver may
  skip straight from acquired to disposed.
-/

/-- Progress payload, mirroring presentations.core.progress_payload.
ProgressPayload: TypedDict keys stage, step, total_steps, percent, with
files optional. -/
structure ProgressPayload where
  stage : String
  step : Nat
  total_steps : Nat
  percent : Nat
  files : Option (List String) := none
  deriving DecidableEq

/-- The fixed stage list declared inside generate_presentation
(sokratic_source.py lines 108-117). -/
def steps : List String :=
  ["start", "form_saved", "style_selected", "generation_started",
   "downloaded_powerpoint", "downloaded_pdf", "downloaded_text", "done"]

/-- Zero-padded two-digit decimal formatting of a natural number, as the
Python format spec 02d produces for the step indices 1..8 used here. -/
def pad2 (n : Nat) : String :=
  if n < 10 then "0" ++ toString n else toString n

/-- os.path.join for a relative second component. -/
def pathJoin (a b : String) : String := a ++ "/" ++ b

/-- Path written by SokraticSource._save_generation_screenshot (lines
49-55): screenshots_dir joined with the 02d-padded 1-based index, an
underscore, the stage name and the png suffix. -/
def shotPath (screenshots_dir : String) (step_index : Nat) (stage : String) : String :=
  pathJoin screenshots_dir (pad2 (step_index + 1) ++ "_" ++ stage ++ ".png")

/-- The report_progress closure of generate_presentation (lines 120-131).
The source computes the percent field as int(((step_index + 1) /
total_steps) * 100) on Python floats; for the values occurring here
(total_steps = 8, step indices 0..7) every intermediate float is exactly
representable, so the result equals the truncated exact rational, which
for nonnegative values is the natural-number division below. -/
def report_progress (total_steps : Nat) (step_index : Nat) (stage : String)
    (files : Option (List String)) : ProgressPayload :=
  { stage := stage
    step := step_index + 1
    total_steps := total_steps
    percent := (step_index + 1) * 100 / total_steps
    files := files }

/-- Modelled from the spec: the spec states percent = round(step/total ×
100) and gives the example round(1/8 × 100) = 13, i.e. rounding half away
from zero for positive values.  Used only to compare the spec's claimed
formula with the source's report_progress. -/
def percent_claimed (step total : Nat) : Nat := (step * 100 * 2 + total) / (2 * total)

/-- External inputs consumed by one run of generate_presentation: the
style count read from the design gallery (page locator count, line 201),
the value random.randint(0, styles_count - 1) would return (line 208,
always in range 0..styles_count-1), and the suggested file names of the
two downloads (line 430). -/
structure GenEnv where
  styles_count : Nat
  rand : Nat
  pptx_name : String
  pdf_name : String
  deriving DecidableEq

/-- Left-to-right accumulation of a decimal digit list, none on any
non-digit character. -/
def digitsToNat (cs : List Char) (acc : Nat) : Option Nat :=
  match cs with
  | [] => some acc
  | c :: rest =>
    if c.isDigit then digitsToNat rest (acc * 10 + (c.toNat - 48)) else none

/-- Python int() applied to a string, for plain decimal numerals with an
optional leading minus sign; every other input raises ValueError (none).
Python additionally accepts surrounding whitespace, a plus sign and
digit-group underscores, which no claim here depends on. -/
def toIntModel (s : String) : Option Int :=
  match s.data with
  | [] => none
  | '-' :: rest =>
    match rest with
    | [] => none
    | _ => (digitsToNat rest 0).map (fun m => -(m : Int))
  | cs => (digitsToNat cs 0).map (fun m => (m : Int))

/-- Style resolution of generate_presentation (lines 207-218): without an
explicit style_id the random index is used; otherwise the string is parsed
as an integer (int(style_id); ValueError becomes the numeric-index
message) and range-checked against styles_count with the out-of-range
message naming both the index and the count. -/
def resolveStyle (styles_count : Nat) (rand : Nat) (style_id : Option String) :
    Except String Nat :=
  match style_id with
  | none => Except.ok rand
  | some s =>
    match toIntModel s with
    | none => Except.error "style_id must be a numeric index"
    | some n =>
      if n < 0 ∨ (styles_count : Int) ≤ n then
        Except.error ("style_id index out of range: " ++ toString n
          ++ " (styles_count=" ++ toString styles_count ++ ")")
      else
        Except.ok n.toNat

/-- The snapshots yielded before the design gallery is consulted (lines
135-192): the start snapshot with the first screenshot, and the form_saved
snapshot with the second screenshot appended. -/
def genPre (assets_dir generation_id : String) : List ProgressPayload :=
  let screenshots_dir := pathJoin (pathJoin assets_dir generation_id) "screenshots"
  let f0 := [shotPath screenshots_dir 0 "start"]
  let f1 := f0 ++ [shotPath screenshots_dir 1 "form_saved"]
  [report_progress steps.length 0 "start" (some f0),
   report_progress steps.length 1 "form_saved" (some f1)]

/-- The full snapshot list of a complete run of generate_presentation
(lines 135-295): eight snapshots, one per stage, each carrying a copy of
the files list accumulated so far (screenshots after every stage, plus the
PowerPoint download, the PDF download and the presentation_text.txt file
at their respective stages). -/
def genAll (assets_dir generation_id : String) (env : GenEnv) : List ProgressPayload :=
  let generation_dir := pathJoin assets_dir generation_id
  let screenshots_dir := pathJoin generation_dir "screenshots"
  let f0 := [shotPath screenshots_dir 0 "start"]
  let f1 := f0 ++ [shotPath screenshots_dir 1 "form_saved"]
  let f2 := f1 ++ [shotPath screenshots_dir 2 "style_selected"]
  let f3 := f2 ++ [shotPath screenshots_dir 3 "generation_started"]
  let f4 := f3 ++ [pathJoin generation_dir env.pptx_name,
                   shotPath screenshots_dir 4 "downloaded_powerpoint"]
  let f5 := f4 ++ [pathJoin generation_dir env.pdf_name,
                   shotPath screenshots_dir 5 "downloaded_pdf"]
  let f6 := f5 ++ [pathJoin generation_dir "presentation_text.txt",
                   shotPath screenshots_dir 6 "downloaded_text"]
  let f7 := f6 ++ [shotPath screenshots_dir 7 "done"]
  [report_progress steps.length 0 "start" (some f0),
   report_progress steps.length 1 "form_saved" (some f1),
   report_progress steps.length 2 "style_selected" (some f2),
   report_progress steps.length 3 "generation_started" (some f3),
   report_progress steps.length 4 "downloaded_powerpoint" (some f4),
   report_progress steps.length 5 "downloaded_pdf" (some f5),
   report_progress steps.length 6 "downloaded_text" (some f6),
   report_progress steps.length 7 "done" (some f7)]

/-- SokraticSource.generate_presentation (lines 89-295) as a producer of
the emitted snapshot list paired with the message of the exception that
aborts the stream, if any: with zero styles in the gallery the no-styles
exception is raised after the form_saved snapshot (line 205); an invalid
or out-of-range explicit style_id raises there as well (lines 210-218);
otherwise the run emits all eight snapshots and ends after done. -/
def generate_presentation_model (assets_dir generation_id : String) (env : GenEnv)
    (style_id : Option String) : List ProgressPayload × Option String :=
  if env.styles_count = 0 then
    (genPre assets_dir generation_id, some "No styles found in design gallery")
  else
    match resolveStyle env.styles_count env.rand style_id with
    | Except.error e => (genPre assets_dir generation_id, some e)
    | Except.ok _ => (genAll assets_dir generation_id env, none)

/-- The files list carried by a snapshot, as run_presentation_task reads
it: update.get with default empty list (main.py line 79). -/
def filesOf (u : ProgressPayload) : List String := u.files.getD []

/-- One list is an initial segment of another: the append-only relation
between successive snapshot file lists. -/
def initialSegment (l₁ l₂ : List String) : Prop := ∃ t, l₁ ++ t = l₂

/-- Every element of an initial segment is an element of the extension. -/
theorem initialSegment_mem {l₁ l₂ : List String} (h : initialSegment l₁ l₂)
    {x : String} (hx : x ∈ l₁) : x ∈ l₂ := by
  rcases h with ⟨t, rfl⟩
  exact List.mem_append_left t hx

/-- A list extends to itself followed by anything. -/
theorem initialSegment_append (l t : List String) : initialSegment l (l ++ t) :=
  ⟨t, rfl⟩

/-- Chain of the append-only relation over the file lists of consecutive
snapshots. -/
def filesChain : List ProgressPayload → Prop
  | [] => True
  | [_] => True
  | u :: v :: rest => initialSegment (filesOf u) (filesOf v) ∧ filesChain (v :: rest)

theorem filesChain_get? {l : List ProgressPayload} (h : filesChain l) :
    ∀ {i : Nat} {u v : ProgressPayload}, l.get? i = some u → l.get? (i + 1) = some v →
      initialSegment (filesOf u) (filesOf v) := by
  induction l with
  | nil => intro i u v hu _; simp at hu
  | cons x xs ih =>
    intro i u v hu hv
    cases i with
    | zero =>
      cases xs with
      | nil => simp at hv
      | cons y ys =>
        simp only [List.get?] at hu hv
        cases hu
        cases hv
        exact h.1
    | succ j =>
      cases xs with
      | nil => simp at hu
      | cons y ys =>
        exact ih h.2 hu hv

/-- Exception value escaping a Python function in the model: either the
UnboundLocalError CPython raises for a read of a never-assigned local
variable (carrying the variable name), or an ordinary exception message. -/
inductive PyExc where
  | unboundLocalError (name : String)
  | err (msg : String)
  deriving DecidableEq

/-- A record written by MongoStorage for a task: save_result writes status
completed with a files list (db.py lines 79-92); save_error writes status
failed with an error message and no files field (db.py lines 64-77). -/
inductive DbWrite where
  | savedResult (files : List String)
  | savedError (msg : String)
  deriving DecidableEq

/-- Behavior of the awaited steps of one run_presentation_task call:
whether async_playwright().start(), source.init_async() and
source.authenticate(...) return or raise (with the str(e) message), and
the generation stream: the snapshots emitted before the stream either
ends normally (none) or raises (some message). -/
structure RunBehavior where
  start : Except String Unit
  init : Except String Unit
  auth : Except String Unit
  gen : List ProgressPayload × Option String

/-- The file_paths accumulation of the snapshot loop (main.py lines
70-79): starting from the empty list, every snapshot whose stage is done
replaces the accumulator with that snapshot's files list (defaulting to
empty when the key is absent); all other snapshots leave it unchanged. -/
def foldDone (updates : List ProgressPayload) : List String :=
  updates.foldl (fun acc u => if u.stage = "done" then filesOf u else acc) []

/-- run_presentation_task (main.py lines 51-92) as a function of the step
behavior, returning the single database write performed and either the
normally returned file_paths list or the exception escaping the call.
Control flow of the source: the try block runs start, construction,
init_async, authenticate and the snapshot loop in order; any exception is
caught by the except block, which records save_error; the finally block
then runs dispose_async and apw.stop, and the function returns (task,
file_paths).  When async_playwright().start() itself raised, the locals
source and apw were never bound, so the finally block raises
UnboundLocalError for the name source, which escapes the function after
save_error was already recorded.  dispose_async and apw.stop are modelled
as non-raising on the paths where their receivers are bound, and
MongoStorage writes as non-raising. -/
def run_presentation_task (b : RunBehavior) : Option DbWrite × Except PyExc (List String) :=
  match b.start with
  | Except.error e =>
      (some (DbWrite.savedError e), Except.error (PyExc.unboundLocalError "source"))
  | Except.ok _ =>
    match b.init with
    | Except.error e => (some (DbWrite.savedError e), Except.ok [])
    | Except.ok _ =>
      match b.auth with
      | Except.error e => (some (DbWrite.savedError e), Except.ok [])
      | Except.ok _ =>
        match b.gen.2 with
        | some e => (some (DbWrite.savedError e), Except.ok (foldDone b.gen.1))
        | none =>
            (some (DbWrite.savedResult (foldDone b.gen.1)), Except.ok (foldDone b.gen.1))

/-- True exactly when the recorded database write is the save_result
(status completed) record. -/
def isSuccessWrite : Option DbWrite → Bool
  | some (DbWrite.savedResult _) => true
  | _ => false

/-- True exactly when an Except value is ok. -/
def exOk {ε α : Type} : Except ε α → Bool
  | Except.ok _ => true
  | Except.error _ => false

/-- Modelled from the spec: the job record of
presentations.core.presentation_task.PresentationTask, whose module is not
under src/; per the spec's Job data model and the constructor calls in
main.py it carries topic, language, slide count, audience and an optional
author. -/
structure PresentationTask where
  topic : String
  language : String
  slides_amount : Nat
  audience : String
  author : Option String
  deriving DecidableEq

/-- main (main.py lines 117-136): asyncio.gather with default
return_exceptions runs one bounded_run per saved task and, when every
coroutine returns, yields their results in submission order; if any
coroutine lets an exception escape, gather raises it, main's except block
logs, and no result pairs are produced (modelled as none). -/
def mainModel (jobs : List (PresentationTask × RunBehavior)) :
    Option (List (PresentationTask × List String)) :=
  let outs := jobs.map (fun tb => (tb.1, run_presentation_task tb.2))
  if outs.all (fun tr => exOk tr.2.2) then
    some (outs.map (fun tr => (tr.1, (tr.2.2.toOption).getD [])))
  else
    none

/-- SokraticSource driver state restricted to the fields init_async reads
and writes (sokratic_source.py lines 27-30): the launched browser and page
(identifiers) and the is_init flag. -/
structure SokraticState where
  browser : Option Nat
  page : Option Nat
  is_init : Bool
  deriving DecidableEq

/-- SokraticSource.init_async (lines 57-70) given the identifiers the
chromium launch and new_page calls would produce: when is_init is false it
launches the browser, sets is_init and creates the page; otherwise it does
nothing.  The second component lists the browsers launched by this call. -/
def init_async (b p : Nat) (s : SokraticState) : SokraticState × List Nat :=
  if s.is_init = false then
    ({ browser := some b, page := some p, is_init := true }, [b])
  else
    (s, [])

/-- Phase of one job in the batch: queued before the semaphore grant;
acquired once the async-with of the semaphore in bounded_run (main.py
lines 123-125) has granted a unit; driverLive while the playwright/browser
instance started inside run_presentation_task exists; disposed after the
finally block has run dispose_async and apw.stop; finished once the
async-with has released the unit. -/
inductive Phase where
  | queued
  | acquired
  | driverLive
  | disposed
  | finished
  deriving DecidableEq

/-- Whether a phase holds a semaphore unit: every phase between the grant
and the release of the async-with block. -/
def holdsUnit : Phase → Bool
  | Phase.acquired => true
  | Phase.driverLive => true
  | Phase.disposed => true
  | _ => false

/-- Whether a phase holds a live driver instance. -/
def holdsDriver : Phase → Bool
  | Phase.driverLive => true
  | _ => false

/-- Global state of the batch: the phase of every job and the number of
semaphore units currently available (asyncio.Semaphore internal value). -/
structure BatchState where
  phases : List Phase
  sem : Nat
  deriving DecidableEq

/-- Initial state of main: every saved task queued, the semaphore at its
full capacity MAX_CONCURRENCY = N (main.py line 121). -/
def initState (M N : Nat) : BatchState :=
  { phases := List.replicate M Phase.queued, sem := N }

/-- Interleaving semantics of the batch: at every step one job performs
its next awaited transition.  acquire needs an available unit and
decrements the counter; launching and disposing the driver keep the unit;
skipDriver covers a run whose playwright startup raised before any
browser existed; release returns the unit when the async-with exits.
Within one job the transitions are strictly ordered, matching the
sequential body of bounded_run and run_presentation_task. -/
inductive BatchStep : BatchState → BatchState → Prop where
  | acquire (s : BatchState) (j : Nat)
      (h : s.phases.get? j = some Phase.queued) (hsem : 0 < s.sem) :
      BatchStep s { phases := s.phases.set j Phase.acquired, sem := s.sem - 1 }
  | launch (s : BatchState) (j : Nat)
      (h : s.phases.get? j = some Phase.acquired) :
      BatchStep s { phases := s.phases.set j Phase.driverLive, sem := s.sem }
  | disposeDriver (s : BatchState) (j : Nat)
      (h : s.phases.get? j = some Phase.driverLive) :
      BatchStep s { phases := s.phases.set j Phase.disposed, sem := s.sem }
  | skipDriver (s : BatchState) (j : Nat)
      (h : s.phases.get? j = some Phase.acquired) :
      BatchStep s { phases := s.phases.set j Phase.disposed, sem := s.sem }
  | release (s : BatchState) (j : Nat)
      (h : s.phases.get? j = some Phase.disposed) :
      BatchStep s { phases := s.phases.set j Phase.finished, sem := s.sem + 1 }

/-- States reachable by the batch with M jobs and concurrency limit N. -/
inductive BatchReachable (M N : Nat) : BatchState → Prop where
  | base : BatchReachable M N (initState M N)
  | step {s t : BatchState} :
      BatchReachable M N s → BatchStep s t → BatchReachable M N t

theorem countP_set (l : List Phase) (j : Nat) (a b : Phase) (p : Phase → Bool)
    (h : l.get? j = some a) :
    (l.set j b).countP p + (if p a then 1 else 0)
      = l.countP p + (if p b then 1 else 0) := by
  induction l generalizing j with
  | nil => simp at h
  | cons x xs ih =>
    cases j with
    | zero =>
      simp only [List.get?] at h
      cases h
      simp only [List.set, List.countP_cons]
      omega
    | succ i =>
      simp only [List.get?] at h
      have := ih i h
      simp only [List.set, List.countP_cons]
      omega

/-- Semaphore accounting invariant: the available units plus the units
held by jobs between grant and release always equal the capacity N. -/
theorem batch_sem_invariant {M N : Nat} {s : BatchState}
    (h : BatchReachable M N s) :
    s.sem + s.phases.countP holdsUnit = N := by
  induction h with
  | base =>
    have h0 : (List.replicate M Phase.queued).countP holdsUnit = 0 := by
      apply List.countP_eq_zero.mpr
      intro a ha
      rw [List.eq_of_mem_replicate ha]
      simp [holdsUnit]
    simp [initState, h0]
  | @step s t hr hstep ih =>
    cases hstep with
    | acquire j hj hsem =>
      have hc := countP_set s.phases j Phase.queued Phase.acquired holdsUnit hj
      simp [holdsUnit] at hc
      dsimp only
      omega
    | launch j hj =>
      have hc := countP_set s.phases j Phase.acquired Phase.driverLive holdsUnit hj
      simp [holdsUnit] at hc
      dsimp only
      omega
    | disposeDriver j hj =>
      have hc := countP_set s.phases j Phase.driverLive Phase.disposed holdsUnit hj
      simp [holdsUnit] at hc
      dsimp only
      omega
    | skipDriver j hj =>
      have hc := countP_set s.phases j Phase.acquired Phase.disposed holdsUnit hj
      simp [holdsUnit] at hc
      dsimp only
      omega
    | release j hj =>
      have hc := countP_set s.phases j Phase.disposed Phase.finished holdsUnit hj
      simp [holdsUnit] at hc
      dsimp only
      omega

theorem countP_le_of_imp (l : List Phase) (p q : Phase → Bool)
    (h : ∀ a, p a = true → q a = true) : l.countP p ≤ l.countP q := by
  induction l with
  | nil => simp
  | cons x xs ih =>
    simp only [List.countP_cons]
    by_cases hx : p x = true
    · rw [h x hx]
      simp [hx]
      omega
    · simp only [Bool.not_eq_true] at hx
      rw [hx]
      simp only [Bool.false_eq_true, if_false]
      cases hq : q x <;> simp <;> omega

/-- Claim C3: for every concurrency limit N and batch size M, in every
reachable state of the batch at most N jobs hold a live driver instance:
a driver exists only between the semaphore grant of bounded_run and the
disposal inside run_presentation_task's finally block, and the unit is
released only afterwards. -/
theorem C3_driver_bound {M N : Nat} {s : BatchState}
    (h : BatchReachable M N s) :
    s.phases.countP holdsDriver ≤ N := by
  have hinv := batch_sem_invariant h
  have hmono : s.phases.countP holdsDriver ≤ s.phases.countP holdsUnit := by
    apply countP_le_of_imp
    intro a ha
    cases a <;> simp [holdsDriver, holdsUnit] at ha ⊢
  omega

/-- Witness for C3: the reachable state of a batch of 4 jobs with limit 2
in which job 0 has acquired the semaphore and launched its driver. -/
theorem C3_driver_bound_witness :
    (({ phases := [Phase.driverLive, Phase.queued, Phase.queued, Phase.queued],
        sem := 1 } : BatchState)).phases.countP holdsDriver ≤ 2 :=
  C3_driver_bound
    (BatchReachable.step
      (BatchReachable.step BatchReachable.base
        (BatchStep.acquire (initState 4 2) 0 rfl (by decide)))
      (BatchStep.launch _ 0 rfl))

/-- Behavior of a run whose playwright startup raises. -/
def startFailBehavior : RunBehavior :=
  { start := Except.error "playwright start failed"
    init := Except.ok ()
    auth := Except.ok ()
    gen := ([], none) }

/-- Claim C1 (code bug): when the driver-initialization step
async_playwright().start() raises, run_presentation_task does record the
Failure for the job (save_error), but the finally block then evaluates
the never-bound local variable source, and the resulting
UnboundLocalError escapes run_presentation_task toward asyncio.gather —
contradicting the claim that no exception ever propagates out. -/
theorem C1_start_failure_propagates :
    run_presentation_task startFailBehavior
      = (some (DbWrite.savedError "playwright start failed"),
         Except.error (PyExc.unboundLocalError "source")) := rfl

/-- Behavior whose snapshot stream terminates without raising and without
ever emitting the done stage. -/
def noDoneBehavior : RunBehavior :=
  { start := Except.ok ()
    init := Except.ok ()
    auth := Except.ok ()
    gen := ([report_progress 8 0 "start" (some ["shot.png"])], none) }

/-- Claim C2 counterexample: a snapshot stream that terminates without
raising and without ever emitting the done stage is nevertheless recorded
as a Success: run_presentation_task calls save_result (status completed,
with an empty file list) although done was never observed, so Outcome is
not Success-iff-done as claimed. -/
theorem C2_success_without_done :
    run_presentation_task noDoneBehavior
      = (some (DbWrite.savedResult []), Except.ok [])
    ∧ noDoneBehavior.gen.1.map (fun u => u.stage) = ["start"] := ⟨rfl, rfl⟩

/-- Claim C2 amended: every run records exactly one outcome, and that
outcome is the Success record (save_result) iff playwright startup,
driver initialization and authentication succeeded and the snapshot
stream terminated without raising — regardless of whether the done stage
was observed (a stream ending without done is recorded as Success with an
empty file list). -/
theorem C2_one_outcome_success_iff_no_error (b : RunBehavior) :
    ((run_presentation_task b).1).isSome = true
    ∧ (isSuccessWrite (run_presentation_task b).1 = true
        ↔ exOk b.start = true ∧ exOk b.init = true ∧ exOk b.auth = true
          ∧ b.gen.2 = none) := by
  rcases b with ⟨st, ini, au, l, err⟩
  cases st <;> cases ini <;> cases au <;> cases err <;>
    simp [run_presentation_task, isSuccessWrite, exOk]

theorem foldDone_no_done (l : List ProgressPayload)
    (h : ∀ u ∈ l, u.stage ≠ "done") :
    ∀ acc, l.foldl (fun acc u => if u.stage = "done" then filesOf u else acc) acc
      = acc := by
  induction l with
  | nil => intro acc; rfl
  | cons x xs ih =>
    intro acc
    have hx : x.stage ≠ "done" := h x (List.mem_cons_self x xs)
    rw [List.foldl_cons, if_neg hx]
    exact ih (fun u hu => h u (List.mem_cons_of_mem x hu)) acc

/-- Claim C9: when the generation stream raises after emitting the
generation_started snapshot and before any done snapshot (startup,
initialization and authentication having succeeded), the recorded outcome
is the save_error record — which by construction carries no artifact
list — and the pair returned by run_presentation_task carries an empty
file list: the partially accumulated artifact paths are discarded. -/
theorem C9_failure_discards_artifacts (b : RunBehavior) (e : String)
    (hstart : b.start = Except.ok ()) (hinit : b.init = Except.ok ())
    (hauth : b.auth = Except.ok ()) (herr : b.gen.2 = some e)
    (hgs : "generation_started" ∈ b.gen.1.map (fun u => u.stage))
    (hnd : "done" ∉ b.gen.1.map (fun u => u.stage)) :
    run_presentation_task b = (some (DbWrite.savedError e), Except.ok []) := by
  have hfd : foldDone b.gen.1 = [] := by
    unfold foldDone
    apply foldDone_no_done
    intro u hu hstage
    exact hnd (hstage ▸ List.mem_map_of_mem (fun u => u.stage) hu)
  rcases b with ⟨st, ini, au, l, err⟩
  dsimp only at hstart hinit hauth herr hfd
  subst hstart hinit hauth herr
  simp [run_presentation_task, hfd]

/-- Behavior whose generation raises on the order page, after the
generation_started snapshot, with screenshots already accumulated. -/
def genFailBehavior : RunBehavior :=
  { start := Except.ok ()
    init := Except.ok ()
    auth := Except.ok ()
    gen := ([report_progress 8 0 "start" (some ["01_start.png"]),
             report_progress 8 1 "form_saved" (some ["01_start.png", "02_form_saved.png"]),
             report_progress 8 2 "style_selected"
               (some ["01_start.png", "02_form_saved.png", "03_style_selected.png"]),
             report_progress 8 3 "generation_started"
               (some ["01_start.png", "02_form_saved.png", "03_style_selected.png",
                      "04_generation_started.png"])],
            some "Timeout 600000ms exceeded") }

/-- Witness for C9 at the concrete behavior genFailBehavior. -/
theorem C9_witness :
    run_presentation_task genFailBehavior
      = (some (DbWrite.savedError "Timeout 600000ms exceeded"), Except.ok []) :=
  C9_failure_discards_artifacts genFailBehavior "Timeout 600000ms exceeded"
    rfl rfl rfl rfl (by decide) (by decide)

/-- Claim C10: init_async is idempotent after a successful first call:
with is_init already true, the call launches no browser, creates no page
and returns the state unchanged. -/
theorem C10_init_async_idempotent (b p : Nat) (s : SokraticState)
    (h : s.is_init = true) : init_async b p s = (s, []) := by
  simp [init_async, h]

/-- Witness for C10 at a concrete already-initialized state. -/
theorem C10_witness :
    init_async 7 8 { browser := some 1, page := some 2, is_init := true }
      = ({ browser := some 1, page := some 2, is_init := true }, []) :=
  C10_init_async_idempotent 7 8 _ rfl

theorem genPre_mem_fields (a g : String) (u : ProgressPayload)
    (hu : u ∈ genPre a g) :
    u.percent = u.step * 100 / u.total_steps ∧ u.total_steps = 8 := by
  simp only [genPre, List.mem_cons, List.mem_singleton, List.not_mem_nil,
    or_false] at hu
  rcases hu with rfl | rfl <;> exact ⟨rfl, rfl⟩

theorem genAll_mem_fields (a g : String) (env : GenEnv) (u : ProgressPayload)
    (hu : u ∈ genAll a g env) :
    u.percent = u.step * 100 / u.total_steps ∧ u.total_steps = 8 := by
  simp only [genAll, List.mem_cons, List.mem_singleton, List.not_mem_nil,
    or_false] at hu
  rcases hu with rfl | rfl | rfl | rfl | rfl | rfl | rfl | rfl <;> exact ⟨rfl, rfl⟩

/-- Claim C4 amended: every snapshot emitted by generate_presentation has
total_steps = 8 and percent equal to the truncation (floor) of
step/total_steps × 100 — natural division, matching the source's int()
conversion, not the rounding claimed by the spec. -/
theorem C4_percent_truncates (a g : String) (env : GenEnv) (sid : Option String)
    (u : ProgressPayload) (hu : u ∈ (generate_presentation_model a g env sid).1) :
    u.percent = u.step * 100 / u.total_steps ∧ u.total_steps = 8 := by
  unfold generate_presentation_model at hu
  by_cases hsc : env.styles_count = 0
  · rw [if_pos hsc] at hu
    exact genPre_mem_fields a g u hu
  · rw [if_neg hsc] at hu
    cases hr : resolveStyle env.styles_count env.rand sid with
    | error e =>
      rw [hr] at hu
      exact genPre_mem_fields a g u hu
    | ok w =>
      rw [hr] at hu
      exact genAll_mem_fields a g env u hu

/-- Concrete generator inputs shared by several witnesses. -/
def sampleEnv : GenEnv :=
  { styles_count := 1, rand := 0, pptx_name := "pres.pptx", pdf_name := "pres.pdf" }

/-- The first snapshot of the concrete run used by the witnesses. -/
def sampleSnap0 : ProgressPayload :=
  { stage := "start", step := 1, total_steps := 8, percent := 12,
    files := some ["assets/gen1/screenshots/01_start.png"] }

/-- The second snapshot of the concrete run used by the witnesses. -/
def sampleSnap1 : ProgressPayload :=
  { stage := "form_saved", step := 2, total_steps := 8, percent := 25,
    files := some ["assets/gen1/screenshots/01_start.png",
                   "assets/gen1/screenshots/02_form_saved.png"] }

/-- Witness for the amended C4 at the first snapshot of a concrete run. -/
theorem C4_witness :
    sampleSnap0.percent = sampleSnap0.step * 100 / sampleSnap0.total_steps
    ∧ sampleSnap0.total_steps = 8 :=
  C4_percent_truncates "assets" "gen1" sampleEnv none sampleSnap0 (by decide)

/-- Claim C4 counterexample: the first snapshot of a run carries percent
12 — the int() truncation of 12.5 — while the spec's claimed formula
round(1/8 × 100) yields 13. -/
theorem C4_first_snapshot_percent_12 :
    ((generate_presentation_model "assets" "gen1" sampleEnv none).1.head?).map
        (fun u => u.percent) = some 12
    ∧ percent_claimed 1 8 = 13 ∧ (12 : Nat) ≠ 13 :=
  ⟨rfl, by decide, by decide⟩

theorem genAll_map_stage (a g : String) (env : GenEnv) :
    (genAll a g env).map (fun u => u.stage) = steps := rfl

theorem genAll_map_step (a g : String) (env : GenEnv) :
    (genAll a g env).map (fun u => u.step) = [1, 2, 3, 4, 5, 6, 7, 8] := rfl

/-- Claim C6: a run of generate_presentation that terminates without
raising emits exactly the declared stage sequence, in order, each stage
exactly once (the stage list is duplicate-free), terminating at done,
with every snapshot's step equal to its 1-based position and total_steps
equal to 8. -/
theorem C6_complete_run_stage_sequence (a g : String) (env : GenEnv)
    (sid : Option String)
    (h : (generate_presentation_model a g env sid).2 = none) :
    (generate_presentation_model a g env sid).1.map (fun u => u.stage) = steps
    ∧ (generate_presentation_model a g env sid).1.map (fun u => u.step)
        = [1, 2, 3, 4, 5, 6, 7, 8]
    ∧ (∀ u ∈ (generate_presentation_model a g env sid).1, u.total_steps = 8)
    ∧ steps.Nodup ∧ steps.getLast? = some "done" := by
  unfold generate_presentation_model at h ⊢
  by_cases hsc : env.styles_count = 0
  · rw [if_pos hsc] at h
    simp at h
  · rw [if_neg hsc] at h ⊢
    cases hr : resolveStyle env.styles_count env.rand sid with
    | error e =>
      rw [hr] at h
      simp at h
    | ok w =>
      refine ⟨genAll_map_stage a g env, genAll_map_step a g env, ?_, by decide, by decide⟩
      intro u hu
      exact (genAll_mem_fields a g env u hu).2

/-- Witness for C6 at a concrete complete run. -/
theorem C6_witness :
    (generate_presentation_model "assets" "gen1" sampleEnv none).2 = none
    ∧ ((generate_presentation_model "assets" "gen1" sampleEnv none).1.map
          (fun u => u.stage) = steps
       ∧ (generate_presentation_model "assets" "gen1" sampleEnv none).1.map
          (fun u => u.step) = [1, 2, 3, 4, 5, 6, 7, 8]
       ∧ (∀ u ∈ (generate_presentation_model "assets" "gen1" sampleEnv none).1,
            u.total_steps = 8)
       ∧ steps.Nodup ∧ steps.getLast? = some "done") :=
  ⟨rfl, C6_complete_run_stage_sequence "assets" "gen1" sampleEnv none rfl⟩

theorem filesChain_genPre (a g : String) : filesChain (genPre a g) :=
  ⟨⟨[shotPath (pathJoin (pathJoin a g) "screenshots") 1 "form_saved"], rfl⟩, trivial⟩

theorem filesChain_genAll (a g : String) (env : GenEnv) :
    filesChain (genAll a g env) :=
  ⟨⟨[shotPath (pathJoin (pathJoin a g) "screenshots") 1 "form_saved"], rfl⟩,
   ⟨[shotPath (pathJoin (pathJoin a g) "screenshots") 2 "style_selected"], rfl⟩,
   ⟨[shotPath (pathJoin (pathJoin a g) "screenshots") 3 "generation_started"], rfl⟩,
   ⟨[pathJoin (pathJoin a g) env.pptx_name,
     shotPath (pathJoin (pathJoin a g) "screenshots") 4 "downloaded_powerpoint"], rfl⟩,
   ⟨[pathJoin (pathJoin a g) env.pdf_name,
     shotPath (pathJoin (pathJoin a g) "screenshots") 5 "downloaded_pdf"], rfl⟩,
   ⟨[pathJoin (pathJoin a g) "presentation_text.txt",
     shotPath (pathJoin (pathJoin a g) "screenshots") 6 "downloaded_text"], rfl⟩,
   ⟨[shotPath (pathJoin (pathJoin a g) "screenshots") 7 "done"], rfl⟩,
   trivial⟩

/-- Claim C7: the artifact lists carried by successive snapshots of one
run are append-only: each snapshot's files list is an initial segment
(prefix) of the next snapshot's files list, and in particular every path
present in the k-th snapshot is present in the (k+1)-th. -/
theorem C7_artifact_lists_append_only (a g : String) (env : GenEnv)
    (sid : Option String) (i : Nat) (u v : ProgressPayload)
    (hu : (generate_presentation_model a g env sid).1.get? i = some u)
    (hv : (generate_presentation_model a g env sid).1.get? (i + 1) = some v) :
    initialSegment (filesOf u) (filesOf v) ∧ ∀ x ∈ filesOf u, x ∈ filesOf v := by
  have hchain : filesChain (generate_presentation_model a g env sid).1 := by
    unfold generate_presentation_model
    by_cases hsc : env.styles_count = 0
    · rw [if_pos hsc]
      exact filesChain_genPre a g
    · rw [if_neg hsc]
      cases hr : resolveStyle env.styles_count env.rand sid with
      | error e => exact filesChain_genPre a g
      | ok w => exact filesChain_genAll a g env
  have hseg := filesChain_get? hchain hu hv
  exact ⟨hseg, fun x hx => initialSegment_mem hseg hx⟩

/-- Witness for C7 at the first two snapshots of a concrete run. -/
theorem C7_witness :
    initialSegment (filesOf sampleSnap0) (filesOf sampleSnap1)
    ∧ ∀ x ∈ filesOf sampleSnap0, x ∈ filesOf sampleSnap1 :=
  C7_artifact_lists_append_only "assets" "gen1" sampleEnv none 0
    sampleSnap0 sampleSnap1 rfl rfl

/-- Claim C5 amended: when at least one style is available, an explicit
style_id whose integer value is negative or at least styles_count makes
generate_presentation raise — after the form_saved snapshot and before
any style is selected (no style_selected snapshot is emitted) — with a
message naming both the out-of-range index and the available count, and
feeding that stream to run_presentation_task records a Failure
(save_error) for the job. -/
theorem C5_out_of_range_style (a g : String) (env : GenEnv) (s : String) (n : Int)
    (hsc : env.styles_count ≠ 0) (hparse : toIntModel s = some n)
    (hrange : n < 0 ∨ (env.styles_count : Int) ≤ n) :
    (generate_presentation_model a g env (some s)).2
      = some ("style_id index out of range: " ++ toString n
          ++ " (styles_count=" ++ toString env.styles_count ++ ")")
    ∧ (generate_presentation_model a g env (some s)).1.map (fun u => u.stage)
      = ["start", "form_saved"]
    ∧ (run_presentation_task
        { start := Except.ok (), init := Except.ok (), auth := Except.ok (),
          gen := generate_presentation_model a g env (some s) }).1
      = some (DbWrite.savedError ("style_id index out of range: " ++ toString n
          ++ " (styles_count=" ++ toString env.styles_count ++ ")")) := by
  have hres : resolveStyle env.styles_count env.rand (some s)
      = Except.error ("style_id index out of range: " ++ toString n
          ++ " (styles_count=" ++ toString env.styles_count ++ ")") := by
    unfold resolveStyle
    simp only [hparse]
    rw [if_pos hrange]
  have hmodel : generate_presentation_model a g env (some s)
      = (genPre a g,
         some ("style_id index out of range: " ++ toString n
           ++ " (styles_count=" ++ toString env.styles_count ++ ")")) := by
    unfold generate_presentation_model
    rw [if_neg hsc, hres]
  refine ⟨by rw [hmodel], by rw [hmodel]; rfl, ?_⟩
  rw [hmodel]
  rfl

/-- Witness for the amended C5: two styles available, style_id "2"
requested. -/
theorem C5_witness :
    (generate_presentation_model "assets" "gen1"
        { styles_count := 2, rand := 0, pptx_name := "p", pdf_name := "q" }
        (some "2")).2
      = some ("style_id index out of range: " ++ toString (2 : Int)
          ++ " (styles_count=" ++ toString (2 : Nat) ++ ")")
    ∧ (generate_presentation_model "assets" "gen1"
        { styles_count := 2, rand := 0, pptx_name := "p", pdf_name := "q" }
        (some "2")).1.map (fun u => u.stage) = ["start", "form_saved"]
    ∧ (run_presentation_task
        { start := Except.ok (), init := Except.ok (), auth := Except.ok (),
          gen := generate_presentation_model "assets" "gen1"
            { styles_count := 2, rand := 0, pptx_name := "p", pdf_name := "q" }
            (some "2") }).1
      = some (DbWrite.savedError ("style_id index out of range: "
          ++ toString (2 : Int) ++ " (styles_count=" ++ toString (2 : Nat) ++ ")")) :=
  C5_out_of_range_style "assets" "gen1"
    { styles_count := 2, rand := 0, pptx_name := "p", pdf_name := "q" }
    "2" 2 (by decide) (by decide) (by decide)

/-- Generator inputs with an empty design gallery. -/
def zeroStyleEnv : GenEnv :=
  { styles_count := 0, rand := 0, pptx_name := "pres.pptx", pdf_name := "pres.pdf" }

/-- Claim C5 counterexample: with zero styles available, requesting
style_id "0" — an index greater than or equal to the available count —
raises the no-styles message, which does not name the requested index or
the count, so the claimed message contents do not hold for every
out-of-range request. -/
theorem C5_zero_styles_message :
    (generate_presentation_model "assets" "gen1" zeroStyleEnv (some "0")).2
      = some "No styles found in design gallery"
    ∧ "No styles found in design gallery"
      ≠ "style_id index out of range: 0 (styles_count=0)" :=
  ⟨rfl, by decide⟩

/-- Sample job record for the batch witnesses. -/
def sampleTask : PresentationTask :=
  { topic := "Whale populations", language := "kz", slides_amount := 30,
    audience := "Middle school", author := some "A. K." }

/-- Second sample job record. -/
def sampleTask2 : PresentationTask :=
  { topic := "Climate and ecosystems", language := "kz", slides_amount := 30,
    audience := "Middle school", author := some "A. K." }

/-- Claim C8 counterexample: a batch containing one job whose playwright
startup raises produces no result pairs at all: the UnboundLocalError
escaping run_presentation_task makes asyncio.gather raise, main's except
block swallows it, and no (job, Outcome) pair is returned — not one pair
per submitted job as claimed. -/
theorem C8_aborted_batch :
    mainModel [(sampleTask, startFailBehavior)] = none
    ∧ [(sampleTask, startFailBehavior)].length = 1 := ⟨rfl, rfl⟩

/-- Claim C8 amended: provided every run returns an outcome instead of
propagating an exception (which fails only for the playwright-startup
corner recorded in the C1 code bug), main returns exactly one
(job, files) pair per submitted job, in the original submission order:
the result is the submission list mapped through each job's own run
result. -/
theorem C8_ordered_results (jobs : List (PresentationTask × RunBehavior))
    (h : ∀ tb ∈ jobs, exOk (run_presentation_task tb.2).2 = true) :
    mainModel jobs
      = some (jobs.map (fun tb =>
          (tb.1, ((run_presentation_task tb.2).2.toOption).getD []))) := by
  unfold mainModel
  have hall : ((jobs.map (fun tb => (tb.1, run_presentation_task tb.2))).all
      (fun tr => exOk tr.2.2)) = true := by
    rw [List.all_eq_true]
    intro tr htr
    rw [List.mem_map] at htr
    rcases htr with ⟨tb, htb, rfl⟩
    exact h tb htb
  rw [if_pos hall]
  rw [List.map_map]
  rfl

/-- Behavior of a run that completes all eight stages. -/
def okBehavior : RunBehavior :=
  { start := Except.ok ()
    init := Except.ok ()
    auth := Except.ok ()
    gen := (genAll "assets" "gen1" sampleEnv, none) }

/-- Behavior of a run whose generation raises, for the C8 witness. -/
def failBehavior2 : RunBehavior :=
  { start := Except.ok ()
    init := Except.ok ()
    auth := Except.ok ()
    gen := (genPre "assets" "gen2", some "Timeout 5000ms exceeded") }

/-- Witness for the amended C8: a two-job batch, one job succeeding and
one failing inside generation, yields one pair per job in submission
order. -/
theorem C8_witness :
    mainModel [(sampleTask, okBehavior), (sampleTask2, failBehavior2)]
      = some ([(sampleTask, okBehavior), (sampleTask2, failBehavior2)].map
          (fun tb => (tb.1, ((run_presentation_task tb.2).2.toOption).getD []))) :=
  C8_ordered_results [(sampleTask, okBehavior), (sampleTask2, failBehavior2)]
    (by decide)
